import Mathlib

/-!
Shallow embedding of the circuit-rotation core of the `tor_ip_changer`
repository, and proofs about the specified behaviour.

The repository contains several near-duplicate drivers.  The embedding below
follows three of them, each in its own namespace:

* `TorIpChanger`   — the `TorIpChanger` class of `torip_changer.py`
  (rate-limited `change_ip`, interval clamping in `__init__`,
  `get_current_ip` with its address regex, the `run` loop's plain sleep);
* `TorIpSuite`     — the module-level functions of `tor_ip_changer.py`
  (the inline authentication ladder of `change_ip`, `get_ip_details`
  normalisation and its fallback record, `ip_changer_loop`'s polled wait);
* `Simplified`     — `tor_ip_changer_simplified.py`'s `change_ip`
  (verification flow, NEWNYM raw-command fallback, soft-restart escalation).

Wall-clock instants are rationals (Python floats are modelled exactly);
external effects (HTTP fetches, the Tor controller, service restarts and the
stop flag) are oracles passed in as explicit arguments, numbered in the order
the source consults them.
-/

/-- Characters of `s` with leading and trailing whitespace removed; the
embedding of Python's `str.strip()` applied to a response body. -/
def strip_chars (l : List Char) : List Char :=
  ((l.dropWhile Char.isWhitespace).reverse.dropWhile Char.isWhitespace).reverse

/-- Split a character list at every `'.'`, keeping empty groups; the groups
that Python's address regex `^\d{1,3}\.\d{1,3}\.\d{1,3}\.\d{1,3}$` would have
to match one by one. -/
def split_dots : List Char → List (List Char)
  | [] => [[]]
  | c :: cs =>
    match split_dots cs with
    | [] => [[c]]
    | g :: gs => if c = '.' then [] :: g :: gs else (c :: g) :: gs

/-- Does `needle` occur at the head of `hay`?  Helper for substring tests. -/
def starts_with : List Char → List Char → Bool
  | [], _ => true
  | _ :: _, [] => false
  | a :: as, b :: bs => a == b && starts_with as bs

/-- Does `needle` occur contiguously anywhere in `hay`?  The embedding of
Python's `needle in hay` on strings. -/
def contains_seq (needle : List Char) : List Char → Bool
  | [] => needle.isEmpty
  | c :: cs => starts_with needle (c :: cs) || contains_seq needle cs

/-- An HTTP response as the scripts see it through `requests`: numeric status
code and body text. -/
structure HttpResponse where
  status : Nat
  body : String

namespace TorIpChanger

/-- `TorIpChanger.__init__` (torip_changer.py line 243):
`self.min_interval = max(10, int(min_interval))`. -/
def min_interval (min_interval_arg : Int) : Int :=
  max 10 min_interval_arg

/-- `TorIpChanger.__init__` (torip_changer.py line 244):
`self.max_interval = max(self.min_interval, int(max_interval))`. -/
def max_interval (min_interval_arg max_interval_arg : Int) : Int :=
  max (min_interval min_interval_arg) max_interval_arg

/-- The duration of the rate-limit sleep at the top of
`TorIpChanger.change_ip` (torip_changer.py lines 298-304):
`since_last = now - self.last_newnym_ts`; when `since_last < 10` the method
sleeps `10 - since_last` seconds, otherwise it does not sleep. -/
def rate_limit_wait (last now : ℚ) : ℚ :=
  if now - last < 10 then 10 - (now - last) else 0

/-- `time.sleep(duration)` blocks for the full duration; it does not consult
the stop flag, whenever the flag may have been set. -/
def sleep_elapsed (duration : ℚ) (stop_at : ℚ) : ℚ :=
  duration

/-- The external circumstances of one `TorIpChanger.change_ip` call:
`now` is `time.time()` read on entry (line 298); `d_send` is the time taken
by opening the controller and authenticating, i.e. from the end of the
rate-limit wait to the instant the NEWNYM signal is sent (line 318);
`d_stamp` is the time from the send to the `time.time()` stored into
`last_newnym_ts` (line 319).  `connect_ok` is whether
`Controller.from_port` succeeds (else `stem.SocketError`);
`auth_default_ok` is whether the bare `controller.authenticate()` succeeds;
`cookie_exists`/`auth_cookie_ok` describe the user-space cookie fallback
(lines 308-316); `signal_ok` is whether `controller.signal(Signal.NEWNYM)`
succeeds. -/
structure CallEnv where
  now : ℚ
  d_send : ℚ
  d_stamp : ℚ
  connect_ok : Bool
  auth_default_ok : Bool
  cookie_exists : Bool
  auth_cookie_ok : Bool
  signal_ok : Bool

/-- Authentication in `TorIpChanger.change_ip` (torip_changer.py lines
307-316): try `controller.authenticate()`; on `AuthenticationFailure`, if the
user-space cookie file exists try cookie authentication, else re-raise. -/
def auth_ok (e : CallEnv) : Bool :=
  if e.auth_default_ok then true
  else if e.cookie_exists then e.auth_cookie_ok
  else false

/-- Outcome of one `TorIpChanger.change_ip` call: the returned boolean, the
value of `self.last_newnym_ts` afterwards, and the wall-clock instant at
which the NEWNYM signal was sent (if it was sent). -/
structure CallResult where
  ok : Bool
  last_newnym_ts : ℚ
  send_instant : Option ℚ

/-- One call of `TorIpChanger.change_ip` (torip_changer.py lines 294-331)
starting from `last = self.last_newnym_ts`.  The method first performs the
rate-limit wait (`rate_limit_wait`), then connects, authenticates and sends
NEWNYM; on success it stores a fresh `time.time()` into `last_newnym_ts` and
returns `True`; every exception path returns `False`. -/
def change_ip (last : ℚ) (e : CallEnv) : CallResult :=
  let wait_end := e.now + rate_limit_wait last e.now
  if e.connect_ok then
    if auth_ok e then
      if e.signal_ok then
        let send := wait_end + e.d_send
        { ok := true, last_newnym_ts := send + e.d_stamp, send_instant := some send }
      else { ok := false, last_newnym_ts := last, send_instant := none }
    else { ok := false, last_newnym_ts := last, send_instant := none }
  else { ok := false, last_newnym_ts := last, send_instant := none }

/-- A sequence of `change_ip` calls on one `TorIpChanger` instance: the list
of NEWNYM send instants in order, together with the final
`last_newnym_ts`. -/
def run_calls (last : ℚ) : List CallEnv → List ℚ × ℚ
  | [] => ([], last)
  | e :: es =>
    let r := change_ip last e
    let rest := run_calls r.last_newnym_ts es
    (r.send_instant.toList ++ rest.1, rest.2)

/-- Clock sanity along a sequence of calls: each call's `time.time()` reading
is no earlier than the timestamp stored by the previous call, and the
durations spent inside the call are nonnegative. -/
def ValidFrom (last : ℚ) : List CallEnv → Prop
  | [] => True
  | e :: es =>
    last ≤ e.now ∧ 0 ≤ e.d_send ∧ 0 ≤ e.d_stamp ∧
      ValidFrom (change_ip last e).last_newnym_ts es

/-- The fixed ordered list of address-reporting services of
`TorIpChanger.get_current_ip` (torip_changer.py lines 274-279). -/
def ip_service_urls : List String :=
  ["https://api.ipify.org", "https://ifconfig.me/ip",
   "https://icanhazip.com", "https://ident.me"]

/-- The test `re.match(r"^\d{1,3}\.\d{1,3}\.\d{1,3}\.\d{1,3}$", ip)` of
`TorIpChanger.get_current_ip` (torip_changer.py line 286): exactly four
dot-separated groups, each one to three decimal digits. -/
def matches_ip_re (s : List Char) : Bool :=
  let parts := split_dots s
  parts.length == 4 &&
    parts.all (fun p =>
      decide (1 ≤ p.length) && decide (p.length ≤ 3) && p.all Char.isDigit)

/-- The numeric value of a run of digits, for comparing an address group
against the specified octet range. -/
def octet_value (p : List Char) : ℕ :=
  p.foldl (fun acc c => acc * 10 + (c.toNat - 48)) 0

/-- Modelled from the spec: the claim's notion of a syntactically valid
address — four dot-separated octets, each in 0-255.  Stated here only to be
compared with the code's own check `matches_ip_re`. -/
def spec_valid_address (s : List Char) : Bool :=
  let parts := split_dots s
  parts.length == 4 &&
    parts.all (fun p =>
      decide (1 ≤ p.length) && p.all Char.isDigit &&
        decide (octet_value p ≤ 255))

/-- `TorIpChanger.get_current_ip`'s loop body (torip_changer.py lines
281-292) over a list of service urls: a request that raises is skipped; a
`200` response whose stripped body matches the address regex is returned;
otherwise the next service is tried; `"Unknown"` is returned once the list is
exhausted.  `fetch url = none` models a `requests.RequestException`. -/
def get_current_ip_from (fetch : String → Option HttpResponse) :
    List String → String
  | [] => "Unknown"
  | url :: rest =>
    match fetch url with
    | none => get_current_ip_from fetch rest
    | some r =>
      if r.status == 200 then
        let ip := strip_chars r.body.toList
        if matches_ip_re ip then String.mk ip
        else get_current_ip_from fetch rest
      else get_current_ip_from fetch rest

/-- `TorIpChanger.get_current_ip` (torip_changer.py lines 272-292). -/
def get_current_ip (fetch : String → Option HttpResponse) : String :=
  get_current_ip_from fetch ip_service_urls

end TorIpChanger

namespace TorIpSuite

/-- One credential strategy as attempted somewhere in `tor_ip_changer.py`:
a bare `controller.authenticate()`, an explicit password string, a cookie
file at a filesystem path, the chroot-qualified cookie variant, or the
plaintext password recovered from the persisted credential file
`~/.tor_password` (used by `control_port_auth_with_password`,
lines 396-405). -/
inductive AuthMethod where
  | no_password : AuthMethod
  | password : String → AuthMethod
  | cookie_path : String → AuthMethod
  | cookie_chroot : String → AuthMethod
  | file_password : AuthMethod
  deriving DecidableEq

/-- The `auth_methods` ladder built inside `change_ip`
(tor_ip_changer.py lines 672-685), in source order. -/
def auth_methods : List AuthMethod :=
  [AuthMethod.no_password,
   AuthMethod.password (""),
   AuthMethod.password ("password"),
   AuthMethod.cookie_path ("/var/run/tor/control.authcookie"),
   AuthMethod.cookie_path ("/var/lib/tor/control.authcookie"),
   AuthMethod.cookie_path ("/run/tor/control.authcookie"),
   AuthMethod.cookie_chroot ("/run/tor/control.authcookie")]

/-- The attempt loop of `change_ip` (tor_ip_changer.py lines 687-695):
each method is attempted in order; an exception is swallowed and the next
method attempted.  Returns the first method the control endpoint accepts
(`none` when the list is exhausted, upon which line 698 raises
`"All authentication methods failed"`), paired with the list of methods that
were attempted, in order. -/
def try_auth (accepts : AuthMethod → Bool) :
    List AuthMethod → Option AuthMethod × List AuthMethod
  | [] => (none, [])
  | m :: ms =>
    if accepts m then (some m, [m])
    else
      let r := try_auth accepts ms
      (r.1, m :: r.2)

/-- Authentication inside `change_ip` (tor_ip_changer.py lines 670-698):
the attempt loop run on the fixed `auth_methods` ladder. -/
def authenticate (accepts : AuthMethod → Bool) :
    Option AuthMethod × List AuthMethod :=
  try_auth accepts auth_methods

/-- `control_port_auth_with_password` (tor_ip_changer.py lines 377-409):
tries the empty password, then the placeholder password, then — when the
persisted credential file exists — the plaintext password parsed out of it.
Returns whether any attempt succeeded. -/
def control_port_auth_with_password (accepts : AuthMethod → Bool)
    (password_file_exists : Bool) : Bool :=
  if accepts (AuthMethod.password ("")) then true
  else if accepts (AuthMethod.password ("password")) then true
  else if password_file_exists && accepts AuthMethod.file_password then true
  else false

/-- A JSON scalar as found in the geolocation service responses. -/
inductive Jv where
  | s : String → Jv
  | n : Int → Jv
  deriving DecidableEq

/-- A geolocation JSON object, modelled as a key/value list;
`data.get(k, dflt)` is `dget`. -/
def GeoData := List (String × Jv)

/-- Python's `dict.get(k, dflt)` on a `GeoData` object. -/
def dget (data : GeoData) (k : String) (dflt : Jv) : Jv :=
  match List.lookup k data with
  | some v => v
  | none => dflt

/-- The dict produced by `get_ip_details` (tor_ip_changer.py lines 546-557
for the normalised success record, lines 564-572 for the fallback record).
A `none` field means the key is absent from the Python dict. -/
structure IpDetails where
  ip : String
  country : Option Jv
  country_code : Option Jv
  region : Option Jv
  city : Option Jv
  isp : Option Jv
  latitude : Option Jv
  longitude : Option Jv
  timezone : Option Jv
  source : Option Jv
  deriving DecidableEq

/-- The normalisation of a successful geolocation response
(tor_ip_changer.py lines 546-557), with the source's `data.get` fallback
chains. -/
def normalize_details (ip url : String) (data : GeoData) : IpDetails :=
  { ip := ip
    country := some (dget data ("country_name")
      (dget data ("country") (Jv.s ("Unknown"))))
    country_code := some (dget data ("country_code")
      (dget data ("countryCode") (Jv.s ("Unknown"))))
    region := some (dget data ("region") (dget data ("regionName")
      (dget data ("region_name") (Jv.s ("Unknown")))))
    city := some (dget data ("city") (Jv.s ("Unknown")))
    isp := some (dget data ("org") (dget data ("isp") (Jv.s ("Unknown"))))
    latitude := some (dget data ("latitude") (dget data ("lat") (Jv.n 0)))
    longitude := some (dget data ("longitude") (dget data ("lon") (Jv.n 0)))
    timezone := some (dget data ("timezone")
      (dget data ("timeZone") (Jv.s ("Unknown"))))
    source := some (Jv.s url) }

/-- The record built when every geolocation service failed
(tor_ip_changer.py lines 564-572): `country`, `region`, `city`, `isp` are
`"Unknown"`, `country_code` is `"XX"`, `source` is `"local"`, and the
`latitude`, `longitude` and `timezone` keys are absent. -/
def fallback_details (ip : String) : IpDetails :=
  { ip := ip
    country := some (Jv.s ("Unknown"))
    country_code := some (Jv.s ("XX"))
    region := some (Jv.s ("Unknown"))
    city := some (Jv.s ("Unknown"))
    isp := some (Jv.s ("Unknown"))
    latitude := none
    longitude := none
    timezone := none
    source := some (Jv.s ("local")) }

/-- The fixed ordered list of geolocation services of `get_ip_details`
(tor_ip_changer.py lines 530-536). -/
def geo_service_urls (ip : String) : List String :=
  ["https://ipapi.co/" ++ ip ++ "/json/",
   "https://ipinfo.io/" ++ ip ++ "/json",
   "https://freegeoip.app/json/" ++ ip,
   "https://extreme-ip-lookup.com/json/" ++ ip]

/-- The service loop of `get_ip_details` (tor_ip_changer.py lines 538-572)
over a list of service urls: a request that raises is skipped, a `200`
response is normalised and returned, any other status is skipped; when the
list is exhausted the all-services-failed fallback record is returned.
`fetch url = none` models an exception. -/
def get_ip_details_from (fetch : String → Option (Nat × GeoData))
    (ip : String) : List String → IpDetails
  | [] => fallback_details ip
  | url :: rest =>
    match fetch url with
    | none => get_ip_details_from fetch ip rest
    | some r =>
      if r.1 == 200 then normalize_details ip url r.2
      else get_ip_details_from fetch ip rest

/-- `get_ip_details` (tor_ip_changer.py lines 522-572) for a caller-supplied
address.  (When called without an address the source first resolves one via
`get_current_ip` and returns `None` if that also fails; the claims below
concern the caller-supplied-address path.) -/
def get_ip_details (fetch : String → Option (Nat × GeoData))
    (ip : String) : IpDetails :=
  get_ip_details_from fetch ip (geo_service_urls ip)

/-- The per-second polling wait of `ip_changer_loop`
(tor_ip_changer.py lines 813-816 and 819-822):
`for _ in range(n): if stop_threads: break; time.sleep(1)`.
`t` is the wall-clock second at which the next flag check happens and
`stop t` the value of the `stop_threads` flag at that second.  Returns the
number of seconds slept before the loop ended. -/
def poll_wait (stop : ℕ → Bool) : ℕ → ℕ → ℕ
  | 0, _ => 0
  | n + 1, t => if stop t then 0 else poll_wait stop n (t + 1) + 1

/-- `ip_changer_loop` (tor_ip_changer.py lines 797-824):
`while not stop_threads:` call `change_ip()`; on success wait a random
interval, polling the stop flag each second; on failure wait 15 seconds the
same way.  `dur t` is the duration of the `change_ip` call started at second
`t`, `change_ok t` its result, and `interval_of t` the interval drawn when
that call finished.  Returns the starting seconds of every `change_ip`
invocation, newest last; `fuel` bounds the number of iterations unfolded. -/
def ip_changer_loop (stop change_ok : ℕ → Bool) (dur interval_of : ℕ → ℕ) :
    ℕ → ℕ → List ℕ
  | 0, _ => []
  | fuel + 1, t =>
    if stop t then []
    else
      let t1 := t + dur t
      let w :=
        if change_ok t then poll_wait stop (interval_of t1) t1
        else poll_wait stop 15 t1
      t :: ip_changer_loop stop change_ok dur interval_of fuel (t1 + w)

end TorIpSuite

namespace Simplified

/-- The error text that triggers the raw-command fallback
(tor_ip_changer_simplified.py line 337): Python's
`"unrecognized status code: 514" in str(e)`. -/
def is514 (e : String) : Bool :=
  contains_seq (("unrecognized status code: 514").toList) e.toList

/-- The success test on the raw reply (tor_ip_changer_simplified.py
line 341): Python's `"250" in response`. -/
def has250 (resp : String) : Bool :=
  contains_seq (("250").toList) resp.toList

/-- The NEWNYM block of `change_ip` (tor_ip_changer_simplified.py lines
332-346): try `controller.signal(Signal.NEWNYM)`; when it raises an error
whose text contains `"unrecognized status code: 514"`, send the raw
`SIGNAL NEWNYM` command and succeed exactly when `"250"` occurs in the
reply; any other error propagates unhandled.  `signal_err = none` means the
primary signal succeeded; `raw_reply = none` means the raw exchange itself
raised.  Returns (block succeeded, raw fallback attempted). -/
def send_newnym (signal_err : Option String) (raw_reply : Option String) :
    Bool × Bool :=
  match signal_err with
  | none => (true, false)
  | some e =>
    if is514 e then
      match raw_reply with
      | some resp => (has250 resp, true)
      | none => (false, true)
    else (false, false)

/-- The external circumstances of one `change_ip` call
(tor_ip_changer_simplified.py lines 303-396).  `resolver k` is the result of
the `k`-th `get_current_ip()` invocation during the call (`none` when every
address service failed); `tor_running k` the `k`-th `is_tor_running()`
answer; `restart_ok k` the result of the `k`-th `restart_tor_service()`
invocation; `conn_ok` whether `Controller.from_port` succeeds; `auth_ok`
whether the bare `controller.authenticate()` succeeds; `auth_cookie_ok`
whether the cookie-file fallback authentication succeeds; `signal_err` and
`raw_reply` feed `send_newnym`. -/
structure SimplEnv where
  resolver : ℕ → Option String
  tor_running : ℕ → Bool
  restart_ok : ℕ → Bool
  conn_ok : Bool
  auth_ok : Bool
  auth_cookie_ok : Bool
  signal_err : Option String
  raw_reply : Option String

/-- Authentication in `change_ip` (tor_ip_changer_simplified.py lines
320-330): try `controller.authenticate()`; on failure try the cookie file;
on failure raise. -/
def auth_succeeded (env : SimplEnv) : Bool :=
  env.auth_ok || env.auth_cookie_ok

/-- A Python return value of `change_ip`: `True`, `False`, or the implicit
`None` of the fall-through path at the end of the function (reached when the
address did not change and the service restart fails,
tor_ip_changer_simplified.py line 377 taking the false branch). -/
inductive PyRet where
  | pyTrue : PyRet
  | pyFalse : PyRet
  | pyNone : PyRet
  deriving DecidableEq

/-- Observable outcome of one `change_ip` call: the returned value, the
global `current_ip` afterwards, how many `get_current_ip()` resolutions were
consumed, how many `restart_tor_service()` invocations were made, and
whether the raw-command fallback was attempted. -/
structure SimplResult where
  ret : PyRet
  current_ip : Option String
  resolves : ℕ
  restarts : ℕ
  raw_tried : Bool
  deriving DecidableEq

/-- `change_ip` (tor_ip_changer_simplified.py lines 303-396), starting with
the global `current_ip = cur`:

1. `old_ip = current_ip or get_current_ip()`;
2. if `is_tor_running()` is false, call `restart_tor_service()` and return
   `False` when Tor is still not running;
3. the controller block: connect, authenticate (bare then cookie), send
   NEWNYM via `send_newnym`; on any exception fall back to
   `restart_tor_service()` and return `False` when that also fails;
4. sleep, then `new_ip = check_current_ip()` (which stores a successful
   resolution into the global `current_ip`); `None` returns `False`;
5. a changed address returns `True`; an unchanged address triggers one
   `restart_tor_service()` escalation and a re-verification, returning
   `True`/`False` on change/no-change, or falling off the end (Python
   `None`) when the restart itself fails. -/
def change_ip (env : SimplEnv) (cur : Option String) : SimplResult :=
  let step0 : Option String × ℕ :=
    match cur with
    | some ip => (some ip, 0)
    | none => (env.resolver 0, 1)
  let old_ip := step0.1
  let r0 := step0.2
  let step1 : Bool × ℕ :=
    if env.tor_running 0 then (true, 0)
    else (env.tor_running 1, 1)
  if step1.1 = false then
    { ret := PyRet.pyFalse, current_ip := cur, resolves := r0,
      restarts := step1.2, raw_tried := false }
  else
    let ctl : Bool × Bool :=
      if env.conn_ok = false then (false, false)
      else if auth_succeeded env = false then (false, false)
      else send_newnym env.signal_err env.raw_reply
    let step2 : Bool × ℕ :=
      if ctl.1 then (true, step1.2)
      else (env.restart_ok step1.2, step1.2 + 1)
    if step2.1 = false then
      { ret := PyRet.pyFalse, current_ip := cur, resolves := r0,
        restarts := step2.2, raw_tried := ctl.2 }
    else
      match env.resolver r0 with
      | none =>
        { ret := PyRet.pyFalse, current_ip := cur, resolves := r0 + 1,
          restarts := step2.2, raw_tried := ctl.2 }
      | some nip =>
        if some nip ≠ old_ip then
          { ret := PyRet.pyTrue, current_ip := some nip, resolves := r0 + 1,
            restarts := step2.2, raw_tried := ctl.2 }
        else
          if env.restart_ok step2.2 then
            match env.resolver (r0 + 1) with
            | none =>
              { ret := PyRet.pyFalse, current_ip := some nip,
                resolves := r0 + 2, restarts := step2.2 + 1,
                raw_tried := ctl.2 }
            | some n2 =>
              if some n2 ≠ old_ip then
                { ret := PyRet.pyTrue, current_ip := some n2,
                  resolves := r0 + 2, restarts := step2.2 + 1,
                  raw_tried := ctl.2 }
              else
                { ret := PyRet.pyFalse, current_ip := some n2,
                  resolves := r0 + 2, restarts := step2.2 + 1,
                  raw_tried := ctl.2 }
          else
            { ret := PyRet.pyNone, current_ip := some nip,
              resolves := r0 + 1, restarts := step2.2 + 1,
              raw_tried := ctl.2 }

end Simplified

/-- Helper: a successful `TorIpChanger.change_ip` call sends its signal at
least 10 seconds after the entry timestamp and stores a timestamp no earlier
than the send instant; the stored timestamp never moves backwards. -/
theorem change_ip_send_bounds (last : ℚ) (e : TorIpChanger.CallEnv)
    (hnow : last ≤ e.now) (hds : 0 ≤ e.d_send) (hdst : 0 ≤ e.d_stamp) :
    (∀ s, (TorIpChanger.change_ip last e).send_instant = some s →
      last + 10 ≤ s ∧ s ≤ (TorIpChanger.change_ip last e).last_newnym_ts) ∧
      last ≤ (TorIpChanger.change_ip last e).last_newnym_ts := by
  unfold TorIpChanger.change_ip TorIpChanger.rate_limit_wait
  split_ifs with h1 <;>
    dsimp only <;>
    refine ⟨fun s hs => ?_, ?_⟩ <;>
    first
      | (simp only [Option.some.injEq] at hs; subst hs;
         exact ⟨by linarith, by linarith⟩)
      | (simp at hs)
      | linarith

/-- Helper: along any clock-monotone sequence of `TorIpChanger.change_ip`
calls, the send instants are pairwise ≥ 10 apart, all of them are ≥ 10 past
the initial timestamp, and the final timestamp is no earlier than the
initial one. -/
theorem run_calls_pairwise (last : ℚ) (es : List TorIpChanger.CallEnv)
    (h : TorIpChanger.ValidFrom last es) :
    List.Pairwise (fun a b : ℚ => a + 10 ≤ b)
        (TorIpChanger.run_calls last es).1 ∧
      (∀ x ∈ (TorIpChanger.run_calls last es).1, last + 10 ≤ x) ∧
      last ≤ (TorIpChanger.run_calls last es).2 := by
  induction es generalizing last with
  | nil => simp [TorIpChanger.run_calls]
  | cons e es ih =>
    obtain ⟨hnow, hds, hdst, hrest⟩ := h
    obtain ⟨hb, hts⟩ := change_ip_send_bounds last e hnow hds hdst
    obtain ⟨ihp, ihlb, ihts⟩ := ih _ hrest
    simp only [TorIpChanger.run_calls]
    cases hsi : (TorIpChanger.change_ip last e).send_instant with
    | none =>
      refine ⟨by simpa using ihp, ?_, le_trans hts ihts⟩
      intro x hx
      simp only [Option.toList_none, List.nil_append] at hx
      exact le_trans (by linarith) (ihlb x hx)
    | some s =>
      obtain ⟨hs10, hsts⟩ := hb s hsi
      refine ⟨?_, ?_, le_trans hts ihts⟩
      · simp only [Option.toList_some, List.singleton_append]
        exact List.pairwise_cons.2
          ⟨fun x hx => by linarith [ihlb x hx], ihp⟩
      · intro x hx
        simp only [Option.toList_some, List.singleton_append,
          List.mem_cons] at hx
        rcases hx with rfl | hx
        · exact hs10
        · linarith [ihlb x hx]

/-- Claim C1: for every clock-monotone sequence of `change_ip` calls on one
`TorIpChanger`, the instants at which the NEWNYM signal reaches the control
endpoint are pairwise at least the 10-second minimum interval apart: before
signalling, `change_ip` sleeps out the remainder of the interval and never
sends early (torip_changer.py lines 294-331). -/
theorem change_ip_rate_limit (last : ℚ) (es : List TorIpChanger.CallEnv)
    (h : TorIpChanger.ValidFrom last es) :
    List.Pairwise (fun a b : ℚ => a + 10 ≤ b)
      (TorIpChanger.run_calls last es).1 :=
  (run_calls_pairwise last es h).1

/-- Witness for C1: a concrete two-call trace satisfying the clock
hypothesis, with its guaranteed 10-second spacing. -/
theorem change_ip_rate_limit_witness :
    TorIpChanger.ValidFrom 0
        [{ now := 3, d_send := 1, d_stamp := 0, connect_ok := true,
           auth_default_ok := true, cookie_exists := false,
           auth_cookie_ok := false, signal_ok := true },
         { now := 15, d_send := 0, d_stamp := 0, connect_ok := true,
           auth_default_ok := true, cookie_exists := false,
           auth_cookie_ok := false, signal_ok := true }] ∧
      List.Pairwise (fun a b : ℚ => a + 10 ≤ b)
        (TorIpChanger.run_calls 0
          [{ now := 3, d_send := 1, d_stamp := 0, connect_ok := true,
             auth_default_ok := true, cookie_exists := false,
             auth_cookie_ok := false, signal_ok := true },
           { now := 15, d_send := 0, d_stamp := 0, connect_ok := true,
             auth_default_ok := true, cookie_exists := false,
             auth_cookie_ok := false, signal_ok := true }]).1 := by
  have hv : TorIpChanger.ValidFrom 0
      [{ now := 3, d_send := 1, d_stamp := 0, connect_ok := true,
         auth_default_ok := true, cookie_exists := false,
         auth_cookie_ok := false, signal_ok := true },
       { now := 15, d_send := 0, d_stamp := 0, connect_ok := true,
         auth_default_ok := true, cookie_exists := false,
         auth_cookie_ok := false, signal_ok := true }] := by
    simp only [TorIpChanger.ValidFrom, TorIpChanger.change_ip,
      TorIpChanger.rate_limit_wait, TorIpChanger.auth_ok]
    norm_num
  exact ⟨hv, change_ip_rate_limit 0 _ hv⟩

/-- Claim C10: `TorIpChanger.change_ip` updates `last_newnym_ts` only
immediately after the NEWNYM signal was sent; every failure path returns
`False` with `last_newnym_ts` unchanged and no signal sent, so a failed
attempt never postpones the next permitted signal. -/
theorem change_ip_ts_update (last : ℚ) (e : TorIpChanger.CallEnv) :
    ((TorIpChanger.change_ip last e).ok = false →
      (TorIpChanger.change_ip last e).last_newnym_ts = last ∧
        (TorIpChanger.change_ip last e).send_instant = none) ∧
    ((TorIpChanger.change_ip last e).ok = true →
      ∃ s, (TorIpChanger.change_ip last e).send_instant = some s ∧
        (TorIpChanger.change_ip last e).last_newnym_ts = s + e.d_stamp) := by
  unfold TorIpChanger.change_ip
  split_ifs <;> simp

/-- Witness for C10: a call whose controller connection fails leaves a zero
timestamp untouched. -/
theorem change_ip_ts_update_witness :
    (TorIpChanger.change_ip 0
      { now := 5, d_send := 0, d_stamp := 0, connect_ok := false,
        auth_default_ok := false, cookie_exists := false,
        auth_cookie_ok := false, signal_ok := false }).last_newnym_ts = 0 :=
  ((change_ip_ts_update 0
    { now := 5, d_send := 0, d_stamp := 0, connect_ok := false,
      auth_default_ok := false, cookie_exists := false,
      auth_cookie_ok := false, signal_ok := false }).1 (by decide)).1

/-- Claim C9: the constructor clamps every configured interval pair so that
the effective minimum is at least the network's 10-second minimum interval
and the effective maximum is at least the effective minimum, so a
caller-supplied interval below the limit cannot shorten the gap between
rotation requests (torip_changer.py lines 240-244). -/
theorem interval_clamping (mi ma : Int) :
    10 ≤ TorIpChanger.min_interval mi ∧
      TorIpChanger.min_interval mi ≤ TorIpChanger.max_interval mi ma :=
  ⟨le_max_left _ _, le_max_left _ _⟩

/-- Helper: the attempt loop reports exhaustion exactly when the handle
accepts none of the listed methods. -/
theorem try_auth_none_iff (accepts : TorIpSuite.AuthMethod → Bool)
    (ms : List TorIpSuite.AuthMethod) :
    (TorIpSuite.try_auth accepts ms).1 = none ↔
      ∀ m ∈ ms, accepts m = false := by
  induction ms with
  | nil => simp [TorIpSuite.try_auth]
  | cons m ms ih =>
    by_cases h : accepts m = true
    · simp [TorIpSuite.try_auth, h]
    · simp only [Bool.not_eq_true] at h
      simp [TorIpSuite.try_auth, h, ih]

/-- Claim C2 counterexample: the ladder actually attempted by `change_ip`
contains no strategy that reads the persisted credential file, so a control
endpoint that accepts only the persisted plaintext credential makes
`authenticate` raise the `AuthError` rather than succeed at the claimed
fifth strategy. -/
theorem authenticate_no_file_credential_cex :
    (TorIpSuite.authenticate
        (fun m => decide (m = TorIpSuite.AuthMethod.file_password))).1 =
        none ∧
      TorIpSuite.AuthMethod.file_password ∉ TorIpSuite.auth_methods := by
  decide

/-- Claim C2 (amended): `change_ip`'s authentication ladder tries, in order,
no credential, the empty-string credential, the `"password"` placeholder,
the cookie file at three fixed well-known paths, and a chroot-qualified
cookie retry, each failure silently swallowed; the persisted credential file
is never consulted.  For a handle accepting only the cookie file at the
second well-known path, strategies 1-3 and the first cookie path are each
attempted exactly once before the success, and for any handle the
`AuthError` surfaces exactly when the whole ladder is exhausted. -/
theorem authenticate_cookie_ladder (accepts : TorIpSuite.AuthMethod → Bool)
    (h1 : accepts TorIpSuite.AuthMethod.no_password = false)
    (h2 : accepts (TorIpSuite.AuthMethod.password ("")) = false)
    (h3 : accepts (TorIpSuite.AuthMethod.password ("password")) = false)
    (h4 : accepts
      (TorIpSuite.AuthMethod.cookie_path ("/var/run/tor/control.authcookie"))
      = false)
    (h5 : accepts
      (TorIpSuite.AuthMethod.cookie_path ("/var/lib/tor/control.authcookie"))
      = true) :
    TorIpSuite.authenticate accepts =
      (some (TorIpSuite.AuthMethod.cookie_path
          ("/var/lib/tor/control.authcookie")),
        [TorIpSuite.AuthMethod.no_password,
         TorIpSuite.AuthMethod.password (""),
         TorIpSuite.AuthMethod.password ("password"),
         TorIpSuite.AuthMethod.cookie_path
           ("/var/run/tor/control.authcookie"),
         TorIpSuite.AuthMethod.cookie_path
           ("/var/lib/tor/control.authcookie")]) ∧
      TorIpSuite.AuthMethod.file_password ∉
        (TorIpSuite.authenticate accepts).2 ∧
      (∀ acc : TorIpSuite.AuthMethod → Bool,
        (TorIpSuite.authenticate acc).1 = none ↔
          ∀ m ∈ TorIpSuite.auth_methods, acc m = false) := by
  have hmain : TorIpSuite.authenticate accepts =
      (some (TorIpSuite.AuthMethod.cookie_path
          ("/var/lib/tor/control.authcookie")),
        [TorIpSuite.AuthMethod.no_password,
         TorIpSuite.AuthMethod.password (""),
         TorIpSuite.AuthMethod.password ("password"),
         TorIpSuite.AuthMethod.cookie_path
           ("/var/run/tor/control.authcookie"),
         TorIpSuite.AuthMethod.cookie_path
           ("/var/lib/tor/control.authcookie")]) := by
    simp [TorIpSuite.authenticate, TorIpSuite.auth_methods,
      TorIpSuite.try_auth, h1, h2, h3, h4, h5]
  refine ⟨hmain, ?_, fun acc => try_auth_none_iff acc _⟩
  rw [hmain]
  decide

/-- Witness for C2 (amended): a handle accepting only the cookie file at
the second well-known path authenticates via exactly that strategy. -/
theorem authenticate_cookie_ladder_witness :
    (TorIpSuite.authenticate (fun m =>
        decide (m = TorIpSuite.AuthMethod.cookie_path
          ("/var/lib/tor/control.authcookie")))).1 =
      some (TorIpSuite.AuthMethod.cookie_path
        ("/var/lib/tor/control.authcookie")) := by
  rw [(authenticate_cookie_ladder
    (fun m => decide (m = TorIpSuite.AuthMethod.cookie_path
      ("/var/lib/tor/control.authcookie")))
    (by decide) (by decide) (by decide) (by decide) (by decide)).1]

/-- Helper: `get_current_ip_from` returns `"Unknown"` or a string matching
the source's address pattern. -/
theorem get_current_ip_from_shape (fetch : String → Option HttpResponse)
    (urls : List String) :
    TorIpChanger.get_current_ip_from fetch urls = "Unknown" ∨
      TorIpChanger.matches_ip_re
        (TorIpChanger.get_current_ip_from fetch urls).toList = true := by
  induction urls with
  | nil => left; rfl
  | cons u rest ih =>
    simp only [TorIpChanger.get_current_ip_from]
    cases fetch u with
    | none => exact ih
    | some r =>
      by_cases h2 : r.status == 200
      · simp only [h2, if_true]
        by_cases h3 :
            TorIpChanger.matches_ip_re (strip_chars r.body.toList) = true
        · simp only [h3, if_true]
          right
          exact h3
        · simp only [h3, if_false]
          exact ih
      · simp only [h2, if_false]
        exact ih

/-- Helper: when every service in the list fails (raises, or answers with a
non-200 status or a body that fails the pattern), `get_current_ip_from`
returns `"Unknown"`. -/
theorem get_current_ip_from_all_fail (fetch : String → Option HttpResponse)
    (urls : List String)
    (h : ∀ url ∈ urls, ∀ r, fetch url = some r → r.status = 200 →
      TorIpChanger.matches_ip_re (strip_chars r.body.toList) = false) :
    TorIpChanger.get_current_ip_from fetch urls = "Unknown" := by
  induction urls with
  | nil => rfl
  | cons u rest ih =>
    simp only [TorIpChanger.get_current_ip_from]
    have hrest := fun url hu => h url (List.mem_cons_of_mem u hu)
    cases hu : fetch u with
    | none => exact ih hrest
    | some r =>
      by_cases h2 : r.status == 200
      · have h200 : r.status = 200 := by simpa using h2
        have hm := h u (List.mem_cons_self u rest) r hu h200
        simp only [h2, if_true, hm, if_false]
        exact ih hrest
      · simp only [h2, if_false]
        exact ih hrest

/-- Helper: `get_current_ip_from` returns the first pattern-matching 200
response in list order. -/
theorem get_current_ip_from_first (fetch : String → Option HttpResponse)
    (pre : List String) (url : String) (rest : List String)
    (r : HttpResponse)
    (hpre : ∀ u ∈ pre, ∀ s, fetch u = some s → s.status = 200 →
      TorIpChanger.matches_ip_re (strip_chars s.body.toList) = false)
    (hr : fetch url = some r) (h200 : r.status = 200)
    (hm : TorIpChanger.matches_ip_re (strip_chars r.body.toList) = true) :
    TorIpChanger.get_current_ip_from fetch (pre ++ url :: rest) =
      String.mk (strip_chars r.body.toList) := by
  induction pre with
  | nil =>
    simp only [List.nil_append, TorIpChanger.get_current_ip_from, hr]
    have hm' : TorIpChanger.matches_ip_re (strip_chars r.body.data) = true :=
      hm
    simp [h200, hm']
  | cons u pre ih =>
    simp only [List.cons_append, TorIpChanger.get_current_ip_from]
    have hrest := fun v hv => hpre v (List.mem_cons_of_mem u hv)
    cases hu : fetch u with
    | none => exact ih hrest
    | some s =>
      by_cases h2 : s.status == 200
      · have hs200 : s.status = 200 := by simpa using h2
        have hmf := hpre u (List.mem_cons_self u pre) s hu hs200
        simp only [h2, if_true, hmf, if_false]
        exact ih hrest
      · simp only [h2, if_false]
        exact ih hrest

/-- Claim C4 counterexample: a service body of `"999.0.0.1"` passes the
source's regex (it only counts one-to-three digit groups) and is returned
verbatim, although its first octet exceeds 255, so `get_current_ip` can
return a syntactically invalid address in the claim's sense. -/
theorem get_current_ip_invalid_octet_cex :
    TorIpChanger.get_current_ip
        (fun _ => some { status := 200, body := ("999.0.0.1") }) =
        ("999.0.0.1") ∧
      TorIpChanger.spec_valid_address (("999.0.0.1").toList) = false := by
  decide

/-- Claim C4 (amended): `get_current_ip` iterates its fixed ordered service
list and returns the body of the first 200-status response whose stripped
text matches the source pattern of four dot-separated groups of one to
three digits (octets are not range-checked against 255), returning
`"Unknown"` when every service fails; it never returns a string that fails
that pattern. -/
theorem get_current_ip_first_pattern (fetch : String → Option HttpResponse) :
    (TorIpChanger.get_current_ip fetch = "Unknown" ∨
      TorIpChanger.matches_ip_re
        (TorIpChanger.get_current_ip fetch).toList = true) ∧
    ((∀ url ∈ TorIpChanger.ip_service_urls, ∀ r, fetch url = some r →
        r.status = 200 →
        TorIpChanger.matches_ip_re (strip_chars r.body.toList) = false) →
      TorIpChanger.get_current_ip fetch = "Unknown") ∧
    (∀ pre url rest r,
      TorIpChanger.ip_service_urls = pre ++ url :: rest →
      (∀ u ∈ pre, ∀ s, fetch u = some s → s.status = 200 →
        TorIpChanger.matches_ip_re (strip_chars s.body.toList) = false) →
      fetch url = some r → r.status = 200 →
      TorIpChanger.matches_ip_re (strip_chars r.body.toList) = true →
      TorIpChanger.get_current_ip fetch =
        String.mk (strip_chars r.body.toList)) := by
  refine ⟨get_current_ip_from_shape fetch _,
    fun h => get_current_ip_from_all_fail fetch _ h,
    fun pre url rest r hsplit hpre hr h200 hm => ?_⟩
  unfold TorIpChanger.get_current_ip
  rw [hsplit]
  exact get_current_ip_from_first fetch pre url rest r hpre hr h200 hm

/-- Witness for C4 (amended): with every service failing, `get_current_ip`
returns `"Unknown"`. -/
theorem get_current_ip_first_pattern_witness :
    TorIpChanger.get_current_ip (fun _ => none) = "Unknown" :=
  (get_current_ip_first_pattern (fun _ => none)).2.1
    (fun _ _ _ hr => Option.noConfusion hr)

/-- Helper: when every geolocation service in the list fails,
`get_ip_details_from` produces the fallback record. -/
theorem get_ip_details_from_all_fail
    (fetch : String → Option (Nat × TorIpSuite.GeoData)) (ip : String)
    (urls : List String)
    (h : ∀ url ∈ urls, ∀ r, fetch url = some r → r.1 ≠ 200) :
    TorIpSuite.get_ip_details_from fetch ip urls =
      TorIpSuite.fallback_details ip := by
  induction urls with
  | nil => rfl
  | cons u rest ih =>
    simp only [TorIpSuite.get_ip_details_from]
    have hrest := fun url hu => h url (List.mem_cons_of_mem u hu)
    cases hu : fetch u with
    | none => exact ih hrest
    | some r =>
      have hne := h u (List.mem_cons_self u rest) r hu
      have h2 : (r.1 == 200) = false := by
        simpa using hne
      simp only [h2, if_false]
      exact ih hrest

/-- Claim C5 counterexample: the record returned when every geolocation
service fails carries `"XX"` (not the `"Unknown"` sentinel) as the country
code, and omits the `timezone` key entirely, so not every field of the
normalised record shape is present and equal to `"Unknown"`. -/
theorem get_ip_details_fallback_cex :
    (TorIpSuite.get_ip_details (fun _ => none) ("1.2.3.4")).country_code ≠
        some (TorIpSuite.Jv.s ("Unknown")) ∧
      (TorIpSuite.get_ip_details (fun _ => none) ("1.2.3.4")).timezone =
        none := by
  decide

/-- Claim C5 (amended): when every geolocation service fails,
`get_ip_details` still hands the caller a record rather than failing, but
it is the fixed fallback record: `country`, `region`, `city` and `isp` are
the `"Unknown"` sentinel, `country_code` is `"XX"`, `source` is `"local"`,
and the `latitude`, `longitude` and `timezone` keys of the normalised shape
are absent. -/
theorem get_ip_details_all_fail
    (fetch : String → Option (Nat × TorIpSuite.GeoData)) (ip : String)
    (h : ∀ url ∈ TorIpSuite.geo_service_urls ip, ∀ r, fetch url = some r →
      r.1 ≠ 200) :
    TorIpSuite.get_ip_details fetch ip = TorIpSuite.fallback_details ip ∧
      (TorIpSuite.get_ip_details fetch ip).country =
        some (TorIpSuite.Jv.s ("Unknown")) ∧
      (TorIpSuite.get_ip_details fetch ip).region =
        some (TorIpSuite.Jv.s ("Unknown")) ∧
      (TorIpSuite.get_ip_details fetch ip).city =
        some (TorIpSuite.Jv.s ("Unknown")) ∧
      (TorIpSuite.get_ip_details fetch ip).isp =
        some (TorIpSuite.Jv.s ("Unknown")) ∧
      (TorIpSuite.get_ip_details fetch ip).country_code =
        some (TorIpSuite.Jv.s ("XX")) ∧
      (TorIpSuite.get_ip_details fetch ip).source =
        some (TorIpSuite.Jv.s ("local")) ∧
      (TorIpSuite.get_ip_details fetch ip).latitude = none ∧
      (TorIpSuite.get_ip_details fetch ip).longitude = none ∧
      (TorIpSuite.get_ip_details fetch ip).timezone = none := by
  have hmain := get_ip_details_from_all_fail fetch ip
    (TorIpSuite.geo_service_urls ip) h
  have hmain' : TorIpSuite.get_ip_details fetch ip =
      TorIpSuite.fallback_details ip := hmain
  rw [hmain']
  exact ⟨rfl, rfl, rfl, rfl, rfl, rfl, rfl, rfl, rfl, rfl⟩

/-- Witness for C5 (amended): concrete all-services-failing lookup. -/
theorem get_ip_details_all_fail_witness :
    TorIpSuite.get_ip_details (fun _ => none) ("1.2.3.4") =
      TorIpSuite.fallback_details ("1.2.3.4") :=
  (get_ip_details_all_fail (fun _ => none) ("1.2.3.4")
    (fun _ _ _ hr => Option.noConfusion hr)).1

/-- Helper: the polled wait never sleeps longer than the loop bound. -/
theorem poll_wait_le (stop : ℕ → Bool) (n t : ℕ) :
    TorIpSuite.poll_wait stop n t ≤ n := by
  induction n generalizing t with
  | zero => exact le_refl 0
  | succ n ih =>
    simp only [TorIpSuite.poll_wait]
    by_cases h : stop t = true
    · simp [h]
    · simp only [Bool.not_eq_true] at h
      simp only [h, Bool.false_eq_true, if_false]
      exact Nat.succ_le_succ (ih (t + 1))

/-- Helper: once a monotone stop flag is set at second `s`, the polled wait
started at second `t` sleeps at most `s - t` more seconds. -/
theorem poll_wait_stop_bound (stop : ℕ → Bool)
    (hmono : ∀ a b, a ≤ b → stop a = true → stop b = true)
    (s : ℕ) (hs : stop s = true) (n t : ℕ) :
    TorIpSuite.poll_wait stop n t ≤ s - t := by
  induction n generalizing t with
  | zero => exact Nat.zero_le _
  | succ n ih =>
    simp only [TorIpSuite.poll_wait]
    by_cases h : stop t = true
    · simp [h]
    · have hts : ¬ s ≤ t := fun hle => h (hmono s t hle hs)
      simp only [Bool.not_eq_true] at h
      simp only [h, Bool.false_eq_true, if_false]
      have := ih (t + 1)
      omega

/-- Helper: `ip_changer_loop` only starts a `change_ip` call at seconds at
which the stop flag is still unset. -/
theorem ip_changer_loop_calls_unstopped (stop change_ok : ℕ → Bool)
    (dur interval_of : ℕ → ℕ) (fuel t u : ℕ)
    (hu : u ∈ TorIpSuite.ip_changer_loop stop change_ok dur interval_of
      fuel t) :
    stop u = false := by
  induction fuel generalizing t with
  | zero => simp [TorIpSuite.ip_changer_loop] at hu
  | succ fuel ih =>
    simp only [TorIpSuite.ip_changer_loop] at hu
    by_cases h : stop t = true
    · simp [h] at hu
    · simp only [Bool.not_eq_true] at h
      simp only [h, Bool.false_eq_true, if_false, List.mem_cons] at hu
      rcases hu with rfl | hu
      · exact h
      · exact ih _ hu

/-- Claim C8 counterexample: the minimum-interval wait of
`TorIpChanger.change_ip` is one bare `time.sleep`; with
`last_newnym_ts = 0` and `now = 0` it sleeps the full 10 seconds even when
the stop flag was set before the wait began (`stop_at = 0`), so that wait
does not return within one polling interval of the stop request. -/
theorem rate_limit_wait_uninterruptible_cex :
    TorIpChanger.sleep_elapsed (TorIpChanger.rate_limit_wait 0 0) 0 = 10 ∧
      ¬ TorIpChanger.sleep_elapsed (TorIpChanger.rate_limit_wait 0 0) 0 ≤ 1
      := by
  constructor
  · norm_num [TorIpChanger.sleep_elapsed, TorIpChanger.rate_limit_wait]
  · norm_num [TorIpChanger.sleep_elapsed, TorIpChanger.rate_limit_wait]

/-- Claim C8 (amended): the post-change interval wait of `ip_changer_loop`
polls the stop flag once per second — with a monotone stop flag set at
second `s`, a wait of `n` seconds started at second `t` sleeps at most
`min n (s - t)` seconds, i.e. it ends within one polling interval of the
stop request — and the loop never starts another `change_ip` network call
once the flag is set; the minimum-interval wait of
`TorIpChanger.change_ip`, by contrast, is a single uninterruptible sleep
(`rate_limit_wait_uninterruptible_cex`). -/
theorem ip_changer_loop_cancellation (stop change_ok : ℕ → Bool)
    (dur interval_of : ℕ → ℕ) (s : ℕ)
    (hmono : ∀ a b, a ≤ b → stop a = true → stop b = true)
    (hs : stop s = true) :
    (∀ n t, TorIpSuite.poll_wait stop n t ≤ min n (s - t)) ∧
      (∀ fuel t u,
        u ∈ TorIpSuite.ip_changer_loop stop change_ok dur interval_of
          fuel t → stop u = false ∧ u ≤ s) := by
  constructor
  · intro n t
    exact le_min (poll_wait_le stop n t)
      (poll_wait_stop_bound stop hmono s hs n t)
  · intro fuel t u hu
    have hfu := ip_changer_loop_calls_unstopped stop change_ok dur
      interval_of fuel t u hu
    refine ⟨hfu, ?_⟩
    by_contra hle
    have : stop u = true := hmono s u (by omega) hs
    rw [hfu] at this
    exact Bool.false_ne_true this

/-- Witness for C8 (amended): a concrete polled wait under a stop flag set
at second 3 sleeps at most 3 of its 7 seconds. -/
theorem ip_changer_loop_cancellation_witness :
    TorIpSuite.poll_wait (fun t => decide (3 ≤ t)) 7 0 ≤ min 7 (3 - 0) :=
  (ip_changer_loop_cancellation (fun t => decide (3 ≤ t)) (fun _ => true)
    (fun _ => 1) (fun _ => 7) 3
    (fun a b hab ha => by
      simp only [decide_eq_true_eq] at ha ⊢
      omega)
    (by decide)).1 7 0

/-- Claim C3 counterexample: with every address resolution returning
Unknown and the NEWNYM signal succeeding, `change_ip` returns `False` at
the first verification with zero restart escalations — it fails immediately
rather than after exhausting the recovery levels. -/
theorem change_ip_unknown_no_escalation_cex :
    (Simplified.change_ip
        { resolver := fun _ => none, tor_running := fun _ => true,
          restart_ok := fun _ => true, conn_ok := true, auth_ok := true,
          auth_cookie_ok := false, signal_err := none, raw_reply := none }
        none).ret = Simplified.PyRet.pyFalse ∧
      (Simplified.change_ip
        { resolver := fun _ => none, tor_running := fun _ => true,
          restart_ok := fun _ => true, conn_ok := true, auth_ok := true,
          auth_cookie_ok := false, signal_err := none, raw_reply := none }
        none).restarts = 0 := by
  decide

/-- Claim C3 (amended): if every address resolution during one `change_ip`
call returns Unknown, the call returns `False` (never a successful change)
— failing at the first unverifiable resolution rather than after exhausting
the recovery levels — and if the old address was Unknown at the start, any
successfully resolved new address is treated as a change. -/
theorem change_ip_unknown_policy (env envB : Simplified.SimplEnv)
    (cur : Option String) (B : String)
    (hres : ∀ k, env.resolver k = none)
    (h0 : envB.resolver 0 = none) (h1 : envB.resolver 1 = some B)
    (htor : envB.tor_running 0 = true) (hconn : envB.conn_ok = true)
    (hauth : envB.auth_ok = true) (hsig : envB.signal_err = none) :
    (Simplified.change_ip env cur).ret = Simplified.PyRet.pyFalse ∧
      (Simplified.change_ip envB none).ret = Simplified.PyRet.pyTrue ∧
      (Simplified.change_ip envB none).current_ip = some B := by
  refine ⟨?_, ?_, ?_⟩
  · cases cur <;>
      simp only [Simplified.change_ip, hres] <;>
      split_ifs <;> rfl
  all_goals
    simp [Simplified.change_ip, Simplified.auth_succeeded,
      Simplified.send_newnym, h0, h1, htor, hconn, hauth, hsig]

/-- Witness for C3 (amended): a concrete call whose resolver always fails
returns `False`. -/
theorem change_ip_unknown_policy_witness :
    (Simplified.change_ip
        { resolver := fun _ => none, tor_running := fun _ => false,
          restart_ok := fun _ => false, conn_ok := false, auth_ok := false,
          auth_cookie_ok := false, signal_err := none, raw_reply := none }
        none).ret = Simplified.PyRet.pyFalse :=
  (change_ip_unknown_policy
    { resolver := fun _ => none, tor_running := fun _ => false,
      restart_ok := fun _ => false, conn_ok := false, auth_ok := false,
      auth_cookie_ok := false, signal_err := none, raw_reply := none }
    { resolver := fun k => if k = 0 then none else some ("2.2.2.2"),
      tor_running := fun _ => true, restart_ok := fun _ => true,
      conn_ok := true, auth_ok := true, auth_cookie_ok := false,
      signal_err := none, raw_reply := none }
    none ("2.2.2.2") (fun _ => rfl) rfl rfl rfl rfl rfl rfl).1

/-- Claim C6: with resolutions [A, A, B] across one `change_ip` call (old
address A, still A after the Level 0 signal, B after the soft service
restart), `change_ip` reports success with new address B, having escalated
exactly once — one `restart_tor_service()` invocation — and consumed
exactly three resolutions. -/
theorem change_ip_sequence_aab (env : Simplified.SimplEnv) (A B : String)
    (hAB : A ≠ B)
    (h0 : env.resolver 0 = some A) (h1 : env.resolver 1 = some A)
    (h2 : env.resolver 2 = some B)
    (htor : env.tor_running 0 = true) (hconn : env.conn_ok = true)
    (hauth : env.auth_ok = true) (hsig : env.signal_err = none)
    (hrestart : env.restart_ok 0 = true) :
    (Simplified.change_ip env none).ret = Simplified.PyRet.pyTrue ∧
      (Simplified.change_ip env none).current_ip = some B ∧
      (Simplified.change_ip env none).restarts = 1 ∧
      (Simplified.change_ip env none).resolves = 3 := by
  have hBA : B ≠ A := Ne.symm hAB
  simp [Simplified.change_ip, Simplified.auth_succeeded,
    Simplified.send_newnym, h0, h1, h2, htor, hconn, hauth, hsig,
    hrestart, hBA]

/-- Witness for C6: a concrete [A, A, B] stub. -/
theorem change_ip_sequence_aab_witness :
    (Simplified.change_ip
        { resolver := fun k =>
            if k ≤ 1 then some ("1.1.1.1") else some ("2.2.2.2"),
          tor_running := fun _ => true, restart_ok := fun _ => true,
          conn_ok := true, auth_ok := true, auth_cookie_ok := false,
          signal_err := none, raw_reply := none }
        none).ret = Simplified.PyRet.pyTrue :=
  (change_ip_sequence_aab
    { resolver := fun k =>
        if k ≤ 1 then some ("1.1.1.1") else some ("2.2.2.2"),
      tor_running := fun _ => true, restart_ok := fun _ => true,
      conn_ok := true, auth_ok := true, auth_cookie_ok := false,
      signal_err := none, raw_reply := none }
    ("1.1.1.1") ("2.2.2.2") (by decide)
    rfl rfl rfl rfl rfl rfl rfl rfl).1

/-- Claim C7: when the primary NEWNYM signal fails with the specific
unrecognized-status error text, `change_ip` falls back to the raw protocol
command: the controller phase then succeeds exactly when `"250"` occurs in
the raw reply (no restart escalation happens before verification when it
does, and one does when it does not), while a signal error without that
text never triggers the raw fallback. -/
theorem change_ip_signal_fallback (env : Simplified.SimplEnv)
    (A B e resp : String) (hAB : A ≠ B)
    (h0 : env.resolver 0 = some A) (h1 : env.resolver 1 = some B)
    (htor : env.tor_running 0 = true) (hconn : env.conn_ok = true)
    (hauth : env.auth_ok = true) (hrestart : env.restart_ok 0 = true)
    (hsig : env.signal_err = some e) :
    (Simplified.is514 e = true → env.raw_reply = some resp →
      ((Simplified.has250 resp = true →
          (Simplified.change_ip env none).raw_tried = true ∧
          (Simplified.change_ip env none).restarts = 0 ∧
          (Simplified.change_ip env none).ret = Simplified.PyRet.pyTrue) ∧
        (Simplified.has250 resp = false →
          (Simplified.change_ip env none).raw_tried = true ∧
          (Simplified.change_ip env none).restarts = 1 ∧
          (Simplified.change_ip env none).ret = Simplified.PyRet.pyTrue)))
      ∧
    (Simplified.is514 e = false →
      (Simplified.change_ip env none).raw_tried = false ∧
      (Simplified.change_ip env none).restarts = 1) := by
  have hBA : B ≠ A := Ne.symm hAB
  constructor
  · intro h514 hraw
    constructor
    · intro hhas
      simp [Simplified.change_ip, Simplified.auth_succeeded,
        Simplified.send_newnym, h0, h1, htor, hconn, hauth, hrestart,
        hsig, h514, hraw, hhas, hBA]
    · intro hhas
      simp [Simplified.change_ip, Simplified.auth_succeeded,
        Simplified.send_newnym, h0, h1, htor, hconn, hauth, hrestart,
        hsig, h514, hraw, hhas, hBA]
  · intro h514
    simp [Simplified.change_ip, Simplified.auth_succeeded,
      Simplified.send_newnym, h0, h1, htor, hconn, hauth, hrestart,
      hsig, h514, hBA]

/-- Witness for C7: a concrete 514 failure whose raw reply carries 250
succeeds without any restart. -/
theorem change_ip_signal_fallback_witness :
    (Simplified.change_ip
        { resolver := fun k =>
            if k = 0 then some ("1.1.1.1") else some ("2.2.2.2"),
          tor_running := fun _ => true, restart_ok := fun _ => true,
          conn_ok := true, auth_ok := true, auth_cookie_ok := false,
          signal_err := some ("unrecognized status code: 514"),
          raw_reply := some ("250 OK") }
        none).raw_tried = true ∧
      (Simplified.change_ip
        { resolver := fun k =>
            if k = 0 then some ("1.1.1.1") else some ("2.2.2.2"),
          tor_running := fun _ => true, restart_ok := fun _ => true,
          conn_ok := true, auth_ok := true, auth_cookie_ok := false,
          signal_err := some ("unrecognized status code: 514"),
          raw_reply := some ("250 OK") }
        none).restarts = 0 :=
  (((change_ip_signal_fallback
    { resolver := fun k =>
        if k = 0 then some ("1.1.1.1") else some ("2.2.2.2"),
      tor_running := fun _ => true, restart_ok := fun _ => true,
      conn_ok := true, auth_ok := true, auth_cookie_ok := false,
      signal_err := some ("unrecognized status code: 514"),
      raw_reply := some ("250 OK") }
    ("1.1.1.1") ("2.2.2.2") ("unrecognized status code: 514") ("250 OK")
    (by decide) rfl rfl rfl rfl rfl rfl rfl).1
    (by decide) rfl).1 (by decide)).imp id (fun h => h.1)
